import Mathlib

/-!
Shallow embedding of PyRIT's `pyrit/prompt_normalizer/prompt_normalizer.py`
(`PromptNormalizer`): request building, converter-chain application,
hash-then-persist, single-prompt dispatch, and batch coordination.

Python objects become Lean structures; in-place mutation becomes explicit
state passing; the memory store becomes a list of persisted
`PromptRequestResponse` values in write order; `raise` / `return` become an
`Except String (Option _)` result carried alongside the final store.
The endpoint (`target.send_prompt_async`) is modelled by a tagged outcome
parameter (`TargetOutcome`): it returns an optional response, raises
`EmptyResponseException`, or raises any other exception (its `str(ex)`).
-/

namespace Pyrit

/-- A seed prompt: raw value, declared data type, metadata map
(`pyrit.models.seed_prompt.SeedPrompt`, fields used by the normalizer). -/
structure SeedPrompt where
  value : String
  data_type : String
  metadata : List (String × String)
deriving DecidableEq, Repr

/-- An ordered group of seed prompts (`SeedPromptGroup`). -/
structure SeedPromptGroup where
  prompts : List SeedPrompt
deriving DecidableEq, Repr

/-- One request/response piece (`pyrit.models.PromptRequestPiece`), with the
fields the normalizer reads or writes. Dict-valued fields are association
lists of strings. -/
structure PromptRequestPiece where
  role : String
  original_value : String
  converted_value : String
  original_value_data_type : String
  converted_value_data_type : String
  conversation_id : String
  sequence : Int
  labels : List (String × String)
  prompt_metadata : List (String × String)
  prompt_target_identifier : List (String × String)
  orchestrator_identifier : List (String × String)
  converter_identifiers : List (List (String × String))
  response_error : String
  original_value_sha256 : String
  converted_value_sha256 : String
deriving DecidableEq, Repr

/-- A request/response: an ordered list of pieces
(`pyrit.models.PromptRequestResponse`). -/
structure PromptRequestResponse where
  request_pieces : List PromptRequestPiece
deriving DecidableEq, Repr

/-- Result of one converter invocation (`ConverterResult`): output text and
output type. -/
structure ConverterResult where
  output_text : String
  output_type : String

/-- A prompt converter capability: `convert_tokens_async(prompt, input_type,
start_token, end_token)` plus `get_identifier()`. The coroutine becomes a
pure function. -/
structure PromptConverter where
  identifier : List (String × String)
  convert_tokens : String → String → String → String → ConverterResult

/-- `PromptConverterConfiguration`: an ordered converter list with optional
index / data-type filters. Python's `None` and `[]` behave identically in
`convert_values` (both falsy), so both are the empty list here. -/
structure PromptConverterConfiguration where
  converters : List PromptConverter
  indexes_to_apply : List Nat
  prompt_data_types_to_apply : List String

/-- `NormalizerRequest`: one batch item (fields read by
`send_prompt_batch_to_target_async`). -/
structure NormalizerRequest where
  seed_prompt_group : SeedPromptGroup
  request_converter_configurations : List PromptConverterConfiguration
  response_converter_configurations : List PromptConverterConfiguration
  conversation_id : Option String

/-- The endpoint outcome of `target.send_prompt_async`: a normal return of an
optional response, an `EmptyResponseException`, or any other exception
carrying its stringified message. -/
inductive TargetOutcome
  | success : Option PromptRequestResponse → TargetOutcome
  | emptyResponse : TargetOutcome
  | failure : String → TargetOutcome

/-- The inner converter loop of `convert_values`: fold the chain over
`(converted_text, converted_text_data_type)`, each converter's output feeding
the next (`prompt_normalizer.py` lines 191-202). -/
def convert_tokens_chain (converters : List PromptConverter)
    (start_token end_token : String) (v t : String) : String × String :=
  converters.foldl
    (fun acc c =>
      let r := c.convert_tokens acc.1 acc.2 start_token end_token
      (r.output_text, r.output_type))
    (v, t)

/-- One configuration applied to one piece, exactly as the body of the
`for piece_index, piece in enumerate(...)` loop in `convert_values`
(lines 179-205): skip when the index filter or the data-type filter excludes
the piece; otherwise extend `converter_identifiers` with the chain's
identifiers and run the chain on the converted value/type. -/
def applyConfigToPiece (start_token end_token : String)
    (cfg : PromptConverterConfiguration) (piece_index : Nat)
    (piece : PromptRequestPiece) : PromptRequestPiece :=
  if cfg.indexes_to_apply ≠ [] ∧ piece_index ∉ cfg.indexes_to_apply then piece
  else if cfg.prompt_data_types_to_apply ≠ [] ∧
      piece.converted_value_data_type ∉ cfg.prompt_data_types_to_apply then piece
  else
    let piece1 := { piece with
      converter_identifiers :=
        piece.converter_identifiers ++
          cfg.converters.map (fun c => PromptConverter.identifier c) }
    let r := convert_tokens_chain cfg.converters start_token end_token
      piece1.converted_value piece1.converted_value_data_type
    { piece1 with converted_value := r.1, converted_value_data_type := r.2 }

/-- The `enumerate` walk over the pieces for one configuration. -/
def convertPiecesOneConfig (start_token end_token : String)
    (cfg : PromptConverterConfiguration) :
    Nat → List PromptRequestPiece → List PromptRequestPiece
  | _, [] => []
  | i, p :: ps =>
      applyConfigToPiece start_token end_token cfg i p ::
        convertPiecesOneConfig start_token end_token cfg (i + 1) ps

/-- `PromptNormalizer.convert_values`: outer loop over configurations, inner
loop over enumerated pieces (lines 171-205). In-place piece mutation becomes
a returned response. -/
def convert_values (start_token end_token : String)
    (converter_configurations : List PromptConverterConfiguration)
    (request_response : PromptRequestResponse) : PromptRequestResponse :=
  ⟨converter_configurations.foldl
    (fun ps cfg => convertPiecesOneConfig start_token end_token cfg 0 ps)
    request_response.request_pieces⟩

/-- Modelled from the spec: `PromptRequestPiece` construction defaults (the
class itself is outside the shown source). Per §3, a fresh piece's converted
value/type start equal to the original value/type, its applied-converter list
starts empty, no error kind is set, and hashes are not yet computed. The
explicit keyword arguments are those passed in `_build_prompt_request_response`
(lines 251-261). -/
def mkPromptRequestPiece (seed : SeedPrompt) (conversation_id : String)
    (sequence : Int) (labels : List (String × String))
    (prompt_target_identifier orchestrator_identifier : List (String × String)) :
    PromptRequestPiece :=
  { role := "user"
    original_value := seed.value
    converted_value := seed.value
    original_value_data_type := seed.data_type
    converted_value_data_type := seed.data_type
    conversation_id := conversation_id
    sequence := sequence
    labels := labels
    prompt_metadata := seed.metadata
    prompt_target_identifier := prompt_target_identifier
    orchestrator_identifier := orchestrator_identifier
    converter_identifiers := []
    response_error := "none"
    original_value_sha256 := ""
    converted_value_sha256 := "" }

/-- `conversation_id if conversation_id else str(uuid4())` (line 248):
Python truthiness makes both `None` and the empty string fall back to the
fresh identifier, which is a parameter here. -/
def resolve_conversation_id (conversation_id : Option String) (fresh : String) :
    String :=
  match conversation_id with
  | some c => if c = "" then fresh else c
  | none => fresh

/-- `PromptNormalizer._build_prompt_request_response` (lines 215-269): resolve
the conversation id, build one `PromptRequestPiece` per seed prompt in group
order, then apply the request-side converter configurations. -/
def _build_prompt_request_response (start_token end_token : String)
    (seed_prompt_group : SeedPromptGroup) (conversation_id : Option String)
    (fresh : String)
    (request_converter_configurations : List PromptConverterConfiguration)
    (target_identifier : List (String × String)) (sequence : Int)
    (labels : List (String × String))
    (orchestrator_identifier : List (String × String)) : PromptRequestResponse :=
  let cid := resolve_conversation_id conversation_id fresh
  let entries := seed_prompt_group.prompts.map
    (fun sp => mkPromptRequestPiece sp cid sequence labels target_identifier
      orchestrator_identifier)
  convert_values start_token end_token request_converter_configurations ⟨entries⟩

/-- Modelled from the spec: `PromptRequestPiece.set_sha256_values_async` (not
in the shown source). Per §3/§8 the hash function is applied to the piece's
values; the hash function itself is an abstract parameter. -/
def set_sha256_values (hash : String → String) (p : PromptRequestPiece) :
    PromptRequestPiece :=
  { p with
    original_value_sha256 := hash p.original_value
    converted_value_sha256 := hash p.converted_value }

/-- Hashing every piece of a request (the `asyncio.gather` over
`set_sha256_values_async`, line 211; pieces are independent, so the
concurrent gather equals a map). -/
def setRequestHashes (hash : String → String) (r : PromptRequestResponse) :
    PromptRequestResponse :=
  ⟨r.request_pieces.map (set_sha256_values hash)⟩

/-- `PromptNormalizer._calc_hash_and_add_request_to_memory` (lines 207-213):
hash every piece, then append the request to the store. Returns the hashed
request (the Python code mutates it in place) together with the new store. -/
def _calc_hash_and_add_request_to_memory (hash : String → String)
    (memory : List PromptRequestResponse) (request : PromptRequestResponse) :
    PromptRequestResponse × List PromptRequestResponse :=
  let hashed := setRequestHashes hash request
  (hashed, memory ++ [hashed])

/-- Modelled from the spec: `construct_response_from_request` (imported from
`pyrit.models`, not in the shown source). Per §4.3/§7 it synthesizes a
response to `request` with one piece per text in `response_text_pieces`,
carrying the given data type and error kind and inheriting the request
piece's conversation scope. -/
def construct_response_from_request (request : PromptRequestPiece)
    (response_text_pieces : List String) (response_type : String)
    (error : String) : PromptRequestResponse :=
  ⟨response_text_pieces.map (fun t =>
    { role := "assistant"
      original_value := t
      converted_value := t
      original_value_data_type := response_type
      converted_value_data_type := response_type
      conversation_id := request.conversation_id
      sequence := request.sequence + 1
      labels := request.labels
      prompt_metadata := request.prompt_metadata
      prompt_target_identifier := request.prompt_target_identifier
      orchestrator_identifier := request.orchestrator_identifier
      converter_identifiers := []
      response_error := error
      original_value_sha256 := ""
      converted_value_sha256 := "" })⟩

/-- `request.request_pieces[0]`: the piece the error paths read. The default
is never reached for the non-empty groups the claims quantify over. -/
def headPiece (r : PromptRequestResponse) : PromptRequestPiece :=
  match r.request_pieces with
  | p :: _ => p
  | [] => mkPromptRequestPiece ⟨"", "", []⟩ "" (-1) [] [] []

/-- `PromptNormalizer.send_prompt_async` (lines 37-118). The endpoint call is
the `outcome` parameter; `raise` becomes `Except.error` with the stringified
exception, `return response` / `return None` become `Except.ok`. The store is
threaded explicitly and returned in write order. -/
def send_prompt_async (hash : String → String) (start_token end_token : String)
    (seed_prompt_group : SeedPromptGroup) (outcome : TargetOutcome)
    (conversation_id : Option String) (fresh : String)
    (request_converter_configurations : List PromptConverterConfiguration)
    (response_converter_configurations : List PromptConverterConfiguration)
    (sequence : Int) (labels : List (String × String))
    (target_identifier : List (String × String))
    (orchestrator_identifier : List (String × String))
    (memory : List PromptRequestResponse) :
    Except String (Option PromptRequestResponse) × List PromptRequestResponse :=
  let request := _build_prompt_request_response start_token end_token
    seed_prompt_group conversation_id fresh request_converter_configurations
    target_identifier sequence labels orchestrator_identifier
  match outcome with
  | .success responseOpt =>
      let step := _calc_hash_and_add_request_to_memory hash memory request
      let memory := step.2
      match responseOpt with
      | none => (.ok none, memory)
      | some response =>
          let response := convert_values start_token end_token
            response_converter_configurations response
          let step2 := _calc_hash_and_add_request_to_memory hash memory response
          (.ok (some step2.1), step2.2)
  | .emptyResponse =>
      let step := _calc_hash_and_add_request_to_memory hash memory request
      let request := step.1
      let memory := step.2
      let response := construct_response_from_request (headPiece request) [""]
        "text" "empty"
      let response := convert_values start_token end_token
        response_converter_configurations response
      let step2 := _calc_hash_and_add_request_to_memory hash memory response
      (.ok (some step2.1), step2.2)
  | .failure msg =>
      let step := _calc_hash_and_add_request_to_memory hash memory request
      let request := step.1
      let memory := step.2
      let error_response := construct_response_from_request (headPiece request)
        [msg] "error" "processing"
      let step2 := _calc_hash_and_add_request_to_memory hash memory error_response
      (.error msg, step2.2)

/-- Modelled from the spec: the fan-in buffer of `batch_task_async`
(`pyrit.common.batch_helper`, not in the shown source). Per §4.4 the
coordinator buffers completions, which may arrive in any order, into a
result slot indexed by submission position. -/
def reassemble {δ : Type} (buf : List (Option δ)) :
    List (Nat × δ) → List (Option δ)
  | [] => buf
  | (i, x) :: rest => reassemble (buf.set i (some x)) rest

/-- Modelled from the spec: `batch_task_async` with
`task_func=self.send_prompt_async` (lines 160-169), abstracting the dispatch
of one item as `task`. `completion_order` lists the submission indexes in the
order their concurrent dispatches complete; each completion is buffered into
its submission slot (§4.4: "buffer out-of-order completions and reassemble in
submission order"). -/
def batch_task_async {α δ : Type} (task : α → δ) (items : List α)
    (completion_order : List Nat) : List (Option δ) :=
  let completions := completion_order.filterMap
    (fun i => (items[i]?).map (fun a => (i, task a)))
  reassemble (List.replicate items.length none) completions

/-- `PromptNormalizer.send_prompt_batch_to_target_async` (lines 120-169):
destructure each `NormalizerRequest` into the four per-item argument lists
and run the batch helper over them, `dispatch` standing for
`self.send_prompt_async` with target/labels/orchestrator fixed. -/
def send_prompt_batch_to_target_async {δ : Type}
    (dispatch : SeedPromptGroup → List PromptConverterConfiguration →
      List PromptConverterConfiguration → Option String → δ)
    (requests : List NormalizerRequest) (completion_order : List Nat) :
    List (Option δ) :=
  let batch_items := requests.map (fun r =>
    (r.seed_prompt_group, r.request_converter_configurations,
      r.response_converter_configurations, r.conversation_id))
  batch_task_async
    (fun item => dispatch item.1 item.2.1 item.2.2.1 item.2.2.2)
    batch_items completion_order

/-- The accumulated effect of a whole `convert_values` call on the piece at
one index: fold the configurations over that piece. -/
def applyConfigsToPiece (start_token end_token : String)
    (configs : List PromptConverterConfiguration) (i : Nat)
    (p : PromptRequestPiece) : PromptRequestPiece :=
  configs.foldl (fun q cfg => applyConfigToPiece start_token end_token cfg i q) p

/-- The condition under which one configuration is applied to one piece: the
negation of the two `continue` guards in `convert_values` (lines 182-185). -/
def configApplies (cfg : PromptConverterConfiguration) (piece_index : Nat)
    (piece : PromptRequestPiece) : Prop :=
  ¬(cfg.indexes_to_apply ≠ [] ∧ piece_index ∉ cfg.indexes_to_apply) ∧
  ¬(cfg.prompt_data_types_to_apply ≠ [] ∧
    piece.converted_value_data_type ∉ cfg.prompt_data_types_to_apply)

lemma applyConfigToPiece_skip (start_token end_token : String)
    (cfg : PromptConverterConfiguration) (i : Nat) (p : PromptRequestPiece)
    (h : ¬ configApplies cfg i p) :
    applyConfigToPiece start_token end_token cfg i p = p := by
  unfold configApplies at h
  rw [not_and_or, not_not, not_not] at h
  unfold applyConfigToPiece
  by_cases h1 : cfg.indexes_to_apply ≠ [] ∧ i ∉ cfg.indexes_to_apply
  · rw [if_pos h1]
  · rcases h with h | h
    · exact absurd h h1
    · rw [if_neg h1, if_pos h]

lemma applyConfigToPiece_applies (start_token end_token : String)
    (cfg : PromptConverterConfiguration) (i : Nat) (p : PromptRequestPiece)
    (h : configApplies cfg i p) :
    applyConfigToPiece start_token end_token cfg i p =
      { p with
        converter_identifiers := p.converter_identifiers ++
          cfg.converters.map (fun c => PromptConverter.identifier c)
        converted_value := (convert_tokens_chain cfg.converters start_token
          end_token p.converted_value p.converted_value_data_type).1
        converted_value_data_type := (convert_tokens_chain cfg.converters
          start_token end_token p.converted_value p.converted_value_data_type).2 } := by
  obtain ⟨h1, h2⟩ := h
  unfold applyConfigToPiece
  rw [if_neg h1, if_neg h2]

lemma applyConfigToPiece_frame (start_token end_token : String)
    (cfg : PromptConverterConfiguration) (i : Nat) (p : PromptRequestPiece) :
    (applyConfigToPiece start_token end_token cfg i p).role = p.role ∧
    (applyConfigToPiece start_token end_token cfg i p).original_value =
      p.original_value ∧
    (applyConfigToPiece start_token end_token cfg i p).original_value_data_type =
      p.original_value_data_type ∧
    (applyConfigToPiece start_token end_token cfg i p).conversation_id =
      p.conversation_id ∧
    (applyConfigToPiece start_token end_token cfg i p).sequence = p.sequence ∧
    (applyConfigToPiece start_token end_token cfg i p).labels = p.labels ∧
    (applyConfigToPiece start_token end_token cfg i p).prompt_metadata =
      p.prompt_metadata ∧
    (applyConfigToPiece start_token end_token cfg i p).prompt_target_identifier =
      p.prompt_target_identifier ∧
    (applyConfigToPiece start_token end_token cfg i p).orchestrator_identifier =
      p.orchestrator_identifier ∧
    (applyConfigToPiece start_token end_token cfg i p).response_error =
      p.response_error ∧
    (applyConfigToPiece start_token end_token cfg i p).original_value_sha256 =
      p.original_value_sha256 ∧
    (applyConfigToPiece start_token end_token cfg i p).converted_value_sha256 =
      p.converted_value_sha256 := by
  unfold applyConfigToPiece
  split
  · simp
  · split
    · simp
    · simp

lemma applyConfigsToPiece_frame (start_token end_token : String)
    (configs : List PromptConverterConfiguration) (i : Nat)
    (p : PromptRequestPiece) :
    (applyConfigsToPiece start_token end_token configs i p).role = p.role ∧
    (applyConfigsToPiece start_token end_token configs i p).original_value =
      p.original_value ∧
    (applyConfigsToPiece start_token end_token configs i p).original_value_data_type =
      p.original_value_data_type ∧
    (applyConfigsToPiece start_token end_token configs i p).conversation_id =
      p.conversation_id ∧
    (applyConfigsToPiece start_token end_token configs i p).sequence = p.sequence ∧
    (applyConfigsToPiece start_token end_token configs i p).labels = p.labels ∧
    (applyConfigsToPiece start_token end_token configs i p).prompt_metadata =
      p.prompt_metadata ∧
    (applyConfigsToPiece start_token end_token configs i p).prompt_target_identifier =
      p.prompt_target_identifier ∧
    (applyConfigsToPiece start_token end_token configs i p).orchestrator_identifier =
      p.orchestrator_identifier ∧
    (applyConfigsToPiece start_token end_token configs i p).response_error =
      p.response_error := by
  induction configs generalizing p with
  | nil => simp [applyConfigsToPiece]
  | cons cfg rest ih =>
      have step : applyConfigsToPiece start_token end_token (cfg :: rest) i p =
          applyConfigsToPiece start_token end_token rest i
            (applyConfigToPiece start_token end_token cfg i p) := rfl
      rw [step]
      obtain ⟨e1, e2, e3, e4, e5, e6, e7, e8, e9, e10, _, _⟩ :=
        applyConfigToPiece_frame start_token end_token cfg i p
      obtain ⟨f1, f2, f3, f4, f5, f6, f7, f8, f9, f10⟩ :=
        ih (applyConfigToPiece start_token end_token cfg i p)
      exact ⟨f1.trans e1, f2.trans e2, f3.trans e3, f4.trans e4, f5.trans e5,
        f6.trans e6, f7.trans e7, f8.trans e8, f9.trans e9, f10.trans e10⟩

lemma convertPiecesOneConfig_getElem (start_token end_token : String)
    (cfg : PromptConverterConfiguration) :
    ∀ (ps : List PromptRequestPiece) (k i : Nat),
      (convertPiecesOneConfig start_token end_token cfg k ps)[i]? =
        (ps[i]?).map (applyConfigToPiece start_token end_token cfg (k + i)) := by
  intro ps
  induction ps with
  | nil => intro k i; simp [convertPiecesOneConfig]
  | cons p ps ih =>
      intro k i
      cases i with
      | zero => simp [convertPiecesOneConfig]
      | succ n =>
          have harith : k + 1 + n = k + (n + 1) := by omega
          simp only [convertPiecesOneConfig, List.getElem?_cons_succ, ih (k + 1) n,
            harith]

lemma convertPiecesOneConfig_length (start_token end_token : String)
    (cfg : PromptConverterConfiguration) :
    ∀ (ps : List PromptRequestPiece) (k : Nat),
      (convertPiecesOneConfig start_token end_token cfg k ps).length = ps.length := by
  intro ps
  induction ps with
  | nil => intro k; rfl
  | cons p ps ih =>
      intro k
      simp [convertPiecesOneConfig, ih (k + 1)]

lemma convert_values_getElem (start_token end_token : String)
    (configs : List PromptConverterConfiguration) :
    ∀ (r : PromptRequestResponse) (i : Nat),
      (convert_values start_token end_token configs r).request_pieces[i]? =
        (r.request_pieces[i]?).map
          (applyConfigsToPiece start_token end_token configs i) := by
  induction configs with
  | nil =>
      intro r i
      show r.request_pieces[i]? = _
      cases hp : r.request_pieces[i]? with
      | none => rfl
      | some p => rfl
  | cons cfg rest ih =>
      intro r i
      have step : convert_values start_token end_token (cfg :: rest) r =
          convert_values start_token end_token rest
            ⟨convertPiecesOneConfig start_token end_token cfg 0
              r.request_pieces⟩ := rfl
      rw [step, ih, convertPiecesOneConfig_getElem]
      cases hp : r.request_pieces[i]? with
      | none => rfl
      | some p =>
          show some (applyConfigsToPiece start_token end_token rest i
              (applyConfigToPiece start_token end_token cfg (0 + i) p)) =
            some (applyConfigsToPiece start_token end_token (cfg :: rest) i p)
          rw [Nat.zero_add]
          rfl

lemma convert_values_length (start_token end_token : String)
    (configs : List PromptConverterConfiguration) :
    ∀ (r : PromptRequestResponse),
      (convert_values start_token end_token configs r).request_pieces.length =
        r.request_pieces.length := by
  induction configs with
  | nil => intro r; rfl
  | cons cfg rest ih =>
      intro r
      have step : convert_values start_token end_token (cfg :: rest) r =
          convert_values start_token end_token rest
            ⟨convertPiecesOneConfig start_token end_token cfg 0
              r.request_pieces⟩ := rfl
      rw [step, ih]
      exact convertPiecesOneConfig_length start_token end_token cfg
        r.request_pieces 0

lemma convert_values_singleton (start_token end_token : String)
    (configs : List PromptConverterConfiguration) (p : PromptRequestPiece) :
    convert_values start_token end_token configs ⟨[p]⟩ =
      ⟨[applyConfigsToPiece start_token end_token configs 0 p]⟩ := by
  induction configs generalizing p with
  | nil => rfl
  | cons cfg rest ih =>
      have step : convert_values start_token end_token (cfg :: rest) ⟨[p]⟩ =
          convert_values start_token end_token rest
            ⟨[applyConfigToPiece start_token end_token cfg 0 p]⟩ := rfl
      rw [step, ih]
      rfl

lemma reassemble_length {δ : Type} :
    ∀ (comps : List (Nat × δ)) (buf : List (Option δ)),
      (reassemble buf comps).length = buf.length := by
  intro comps
  induction comps with
  | nil => intro buf; rfl
  | cons q rest ih =>
      intro buf
      obtain ⟨i, x⟩ := q
      show (reassemble (buf.set i (some x)) rest).length = buf.length
      rw [ih, List.length_set]

lemma reassemble_not_mem {δ : Type} :
    ∀ (comps : List (Nat × δ)) (buf : List (Option δ)) (j : Nat),
      j ∉ comps.map Prod.fst →
      (reassemble buf comps)[j]? = buf[j]? := by
  intro comps
  induction comps with
  | nil => intro buf j _; rfl
  | cons q rest ih =>
      intro buf j hj
      obtain ⟨i, x⟩ := q
      simp only [List.map_cons, List.mem_cons, not_or] at hj
      show (reassemble (buf.set i (some x)) rest)[j]? = buf[j]?
      rw [ih _ j hj.2, List.getElem?_set_ne (fun h => hj.1 h.symm)]

lemma reassemble_getElem_of_mem {δ : Type} (y : δ) :
    ∀ (comps : List (Nat × δ)) (buf : List (Option δ)) (j : Nat),
      j < buf.length →
      (∀ q ∈ comps, q.1 = j → q.2 = y) →
      j ∈ comps.map Prod.fst →
      (reassemble buf comps)[j]? = some (some y) := by
  intro comps
  induction comps with
  | nil => intro buf j _ _ hmem; simp at hmem
  | cons q rest ih =>
      intro buf j hlen hval hmem
      obtain ⟨i, x⟩ := q
      show (reassemble (buf.set i (some x)) rest)[j]? = some (some y)
      by_cases hj : j ∈ rest.map Prod.fst
      · exact ih (buf.set i (some x)) j (by rw [List.length_set]; exact hlen)
          (fun q hq => hval q (List.mem_cons_of_mem _ hq)) hj
      · have hij : i = j := by
          simp only [List.map_cons, List.mem_cons] at hmem
          rcases hmem with h | h
          · exact h.symm
          · exact absurd h hj
        have hx : x = y := hval (i, x) (List.mem_cons_self _ _) hij
        rw [reassemble_not_mem rest _ j hj, hij, hx,
          List.getElem?_set_self]
        exact hlen

lemma applyConfigsToPiece_skip_all (start_token end_token : String)
    (configs : List PromptConverterConfiguration) (i : Nat)
    (p : PromptRequestPiece) (h : ∀ cfg ∈ configs, ¬ configApplies cfg i p) :
    applyConfigsToPiece start_token end_token configs i p = p := by
  induction configs with
  | nil => rfl
  | cons cfg rest ih =>
      have step : applyConfigsToPiece start_token end_token (cfg :: rest) i p =
          applyConfigsToPiece start_token end_token rest i
            (applyConfigToPiece start_token end_token cfg i p) := rfl
      rw [step, applyConfigToPiece_skip start_token end_token cfg i p
        (h cfg (List.mem_cons_self _ _))]
      exact ih (fun c hc => h c (List.mem_cons_of_mem _ hc))

lemma convert_values_mem (start_token end_token : String)
    (configs : List PromptConverterConfiguration) (r : PromptRequestResponse)
    (q : PromptRequestPiece)
    (hq : q ∈ (convert_values start_token end_token configs r).request_pieces) :
    ∃ (j : Nat) (p : PromptRequestPiece), r.request_pieces[j]? = some p ∧
      q = applyConfigsToPiece start_token end_token configs j p := by
  rw [List.mem_iff_getElem?] at hq
  obtain ⟨j, hj⟩ := hq
  rw [convert_values_getElem] at hj
  cases hp : r.request_pieces[j]? with
  | none => rw [hp] at hj; exact absurd hj (by simp)
  | some p =>
      rw [hp] at hj
      exact ⟨j, p, hp, (Option.some.inj hj).symm⟩

lemma setRequestHashes_hash_inv (hash : String → String)
    (r : PromptRequestResponse) :
    ∀ p ∈ (setRequestHashes hash r).request_pieces,
      p.converted_value_sha256 = hash p.converted_value ∧
      p.original_value_sha256 = hash p.original_value := by
  intro p hp
  simp only [setRequestHashes, List.mem_map] at hp
  obtain ⟨q, _, rfl⟩ := hp
  exact ⟨rfl, rfl⟩

/-- Claim C10: `convert_values` mutates only the converted value, the
converted data type and the converter-identifier list of each piece: the
piece count is preserved and, positionally, each output piece agrees with its
input piece on role, original value, original data type, conversation id,
sequence, labels and metadata, whether or not any configuration matched. -/
theorem convert_values_frame_spec (start_token end_token : String)
    (configs : List PromptConverterConfiguration) (r : PromptRequestResponse) :
    (convert_values start_token end_token configs r).request_pieces.length =
      r.request_pieces.length ∧
    ∀ (i : Nat) (p q : PromptRequestPiece),
      r.request_pieces[i]? = some p →
      (convert_values start_token end_token configs r).request_pieces[i]? =
        some q →
      q.original_value = p.original_value ∧
      q.original_value_data_type = p.original_value_data_type ∧
      q.role = p.role ∧
      q.conversation_id = p.conversation_id ∧
      q.sequence = p.sequence ∧
      q.labels = p.labels ∧
      q.prompt_metadata = p.prompt_metadata := by
  refine ⟨convert_values_length start_token end_token configs r, ?_⟩
  intro i p q hp hq
  rw [convert_values_getElem, hp] at hq
  have hpq : applyConfigsToPiece start_token end_token configs i p = q :=
    Option.some.inj hq
  obtain ⟨f1, f2, f3, f4, f5, f6, f7, _, _, _⟩ :=
    applyConfigsToPiece_frame start_token end_token configs i p
  rw [hpq] at f1 f2 f3 f4 f5 f6 f7
  exact ⟨f2, f3, f1, f4, f5, f6, f7⟩

/-- Claim C7: a configuration applies to a piece iff (its index set is empty
or the piece's index is in it) and (its data-type set is empty or the piece's
current converted data type is in it); and a piece that no configuration of a
`convert_values` call applies to comes back entirely unchanged — in
particular with unchanged converted value, converted data type and
converter-identifier list. -/
theorem converter_filter_spec (start_token end_token : String) :
    (∀ (cfg : PromptConverterConfiguration) (i : Nat) (p : PromptRequestPiece),
      configApplies cfg i p ↔
        ((cfg.indexes_to_apply = [] ∨ i ∈ cfg.indexes_to_apply) ∧
          (cfg.prompt_data_types_to_apply = [] ∨
            p.converted_value_data_type ∈ cfg.prompt_data_types_to_apply))) ∧
    (∀ (configs : List PromptConverterConfiguration)
        (r : PromptRequestResponse) (i : Nat) (p : PromptRequestPiece),
      r.request_pieces[i]? = some p →
      (∀ cfg ∈ configs, ¬ configApplies cfg i p) →
      (convert_values start_token end_token configs r).request_pieces[i]? =
        some p) := by
  constructor
  · intro cfg i p
    unfold configApplies
    constructor
    · rintro ⟨h1, h2⟩
      rw [not_and_or, not_not, not_not] at h1 h2
      exact ⟨h1, h2⟩
    · rintro ⟨h1, h2⟩
      rw [not_and_or, not_not, not_not]
      rw [not_and_or, not_not, not_not]
      exact ⟨h1, h2⟩
  · intro configs r i p hp hskip
    rw [convert_values_getElem, hp]
    show some (applyConfigsToPiece start_token end_token configs i p) = some p
    rw [applyConfigsToPiece_skip_all start_token end_token configs i p hskip]

/-- Claim C6: on a matching piece the converters of a chain run in declared
order, the output value/type of converter n feeding converter n+1; the
piece's final converted value/type is the chain's final output and the
converter identifiers are appended in chain order. Consequently the chains
[A, B] and [B, A] produce different pieces whenever the two compositions
disagree on the piece's value (a non-commuting pair). -/
theorem converter_chain_order_spec (start_token end_token : String)
    (A B : PromptConverter) (i : Nat) (p : PromptRequestPiece) :
    let rA := A.convert_tokens p.converted_value p.converted_value_data_type
      start_token end_token
    let rAB := B.convert_tokens rA.output_text rA.output_type start_token
      end_token
    let rB := B.convert_tokens p.converted_value p.converted_value_data_type
      start_token end_token
    let rBA := A.convert_tokens rB.output_text rB.output_type start_token
      end_token
    (∀ (cs : List PromptConverter) (c : PromptConverter) (v t : String),
      convert_tokens_chain (cs ++ [c]) start_token end_token v t =
        ((c.convert_tokens (convert_tokens_chain cs start_token end_token v t).1
          (convert_tokens_chain cs start_token end_token v t).2 start_token
          end_token).output_text,
         (c.convert_tokens (convert_tokens_chain cs start_token end_token v t).1
          (convert_tokens_chain cs start_token end_token v t).2 start_token
          end_token).output_type)) ∧
    (∀ (cs : List PromptConverter),
      applyConfigToPiece start_token end_token ⟨cs, [], []⟩ i p =
        { p with
          converter_identifiers := p.converter_identifiers ++
            cs.map (fun c => PromptConverter.identifier c)
          converted_value := (convert_tokens_chain cs start_token end_token
            p.converted_value p.converted_value_data_type).1
          converted_value_data_type := (convert_tokens_chain cs start_token
            end_token p.converted_value p.converted_value_data_type).2 }) ∧
    (applyConfigToPiece start_token end_token ⟨[A, B], [], []⟩ i p =
      { p with
        converter_identifiers := p.converter_identifiers ++
          [A.identifier, B.identifier]
        converted_value := rAB.output_text
        converted_value_data_type := rAB.output_type }) ∧
    (applyConfigToPiece start_token end_token ⟨[B, A], [], []⟩ i p =
      { p with
        converter_identifiers := p.converter_identifiers ++
          [B.identifier, A.identifier]
        converted_value := rBA.output_text
        converted_value_data_type := rBA.output_type }) ∧
    ((rAB.output_text, rAB.output_type) ≠ (rBA.output_text, rBA.output_type) →
      applyConfigToPiece start_token end_token ⟨[A, B], [], []⟩ i p ≠
        applyConfigToPiece start_token end_token ⟨[B, A], [], []⟩ i p) := by
  intro rA rAB rB rBA
  have happlies : ∀ cs : List PromptConverter,
      configApplies ⟨cs, [], []⟩ i p := by
    intro cs
    exact ⟨fun h => h.1 rfl, fun h => h.1 rfl⟩
  have hgen : ∀ (cs : List PromptConverter),
      applyConfigToPiece start_token end_token ⟨cs, [], []⟩ i p =
        { p with
          converter_identifiers := p.converter_identifiers ++
            cs.map (fun c => PromptConverter.identifier c)
          converted_value := (convert_tokens_chain cs start_token end_token
            p.converted_value p.converted_value_data_type).1
          converted_value_data_type := (convert_tokens_chain cs start_token
            end_token p.converted_value p.converted_value_data_type).2 } := by
    intro cs
    exact applyConfigToPiece_applies start_token end_token ⟨cs, [], []⟩ i p
      (happlies cs)
  have hAB := hgen [A, B]
  have hBA := hgen [B, A]
  refine ⟨?_, hgen, hAB, hBA, ?_⟩
  · intro cs c v t
    simp [convert_tokens_chain, List.foldl_append]
  · intro hne heq
    apply hne
    rw [hAB, hBA] at heq
    exact congrArg (fun x => (PromptRequestPiece.converted_value x,
      PromptRequestPiece.converted_value_data_type x)) heq

/-- Claim C4: for a non-empty seed-prompt group the request builder returns
one piece per seed prompt in group order, each piece carrying role "user" and
the seed's value, data type and metadata, all pieces sharing the one resolved
conversation id, which is the freshly generated identifier when the caller
supplies none. -/
theorem build_prompt_request_response_spec (start_token end_token : String)
    (seed_prompt_group : SeedPromptGroup) (conversation_id : Option String)
    (fresh : String)
    (request_converter_configurations : List PromptConverterConfiguration)
    (target_identifier : List (String × String)) (sequence : Int)
    (labels : List (String × String))
    (orchestrator_identifier : List (String × String))
    (hne : seed_prompt_group.prompts ≠ []) :
    let cid := resolve_conversation_id conversation_id fresh
    let out := _build_prompt_request_response start_token end_token
      seed_prompt_group conversation_id fresh request_converter_configurations
      target_identifier sequence labels orchestrator_identifier
    out.request_pieces.length = seed_prompt_group.prompts.length ∧
    out.request_pieces ≠ [] ∧
    (∀ (i : Nat) (sp : SeedPrompt), seed_prompt_group.prompts[i]? = some sp →
      ∃ p : PromptRequestPiece, out.request_pieces[i]? = some p ∧
        p.role = "user" ∧ p.original_value = sp.value ∧
        p.original_value_data_type = sp.data_type ∧
        p.prompt_metadata = sp.metadata ∧ p.conversation_id = cid) ∧
    (conversation_id = none → cid = fresh) := by
  intro cid out
  have hout : out = convert_values start_token end_token
      request_converter_configurations
      ⟨seed_prompt_group.prompts.map (fun sp => mkPromptRequestPiece sp cid
        sequence labels target_identifier orchestrator_identifier)⟩ := rfl
  have hlen : out.request_pieces.length = seed_prompt_group.prompts.length := by
    rw [hout, convert_values_length]
    exact List.length_map _ _
  refine ⟨hlen, ?_, ?_, ?_⟩
  · intro h0
    exact hne (List.length_eq_zero.mp (by rw [← hlen, h0]; rfl))
  · intro i sp hsp
    have hget : out.request_pieces[i]? =
        some (applyConfigsToPiece start_token end_token
          request_converter_configurations i
          (mkPromptRequestPiece sp cid sequence labels target_identifier
            orchestrator_identifier)) := by
      rw [hout, convert_values_getElem]
      show (Option.map _ (List.map _ seed_prompt_group.prompts)[i]?) = _
      rw [List.getElem?_map, hsp]
      rfl
    obtain ⟨f1, f2, f3, f4, _, _, f7, _, _, _⟩ :=
      applyConfigsToPiece_frame start_token end_token
        request_converter_configurations i
        (mkPromptRequestPiece sp cid sequence labels target_identifier
          orchestrator_identifier)
    exact ⟨_, hget, f1, f2, f3, f7, f4⟩
  · intro h
    show resolve_conversation_id conversation_id fresh = fresh
    rw [h]
    rfl

lemma construct_response_mem (req : PromptRequestPiece) (texts : List String)
    (ty err : String) :
    ∀ p ∈ (construct_response_from_request req texts ty err).request_pieces,
      p.response_error = err ∧ p.original_value ∈ texts := by
  intro p hp
  simp only [construct_response_from_request, List.mem_map] at hp
  obtain ⟨t, ht, rfl⟩ := hp
  exact ⟨rfl, ht⟩

lemma send_new_entries_hashed (hash : String → String)
    (start_token end_token : String) (seed_prompt_group : SeedPromptGroup)
    (outcome : TargetOutcome) (conversation_id : Option String) (fresh : String)
    (reqC respC : List PromptConverterConfiguration) (sequence : Int)
    (labels : List (String × String))
    (target_identifier orchestrator_identifier : List (String × String))
    (memory : List PromptRequestResponse) :
    ∀ entry ∈ ((send_prompt_async hash start_token end_token seed_prompt_group
        outcome conversation_id fresh reqC respC sequence labels
        target_identifier orchestrator_identifier memory).2).drop memory.length,
      ∃ r0, entry = setRequestHashes hash r0 := by
  intro entry hentry
  cases outcome with
  | success o =>
      cases o with
      | none =>
          rw [show (send_prompt_async hash start_token end_token
              seed_prompt_group (.success none) conversation_id fresh reqC respC
              sequence labels target_identifier orchestrator_identifier
              memory).2 =
            memory ++ [setRequestHashes hash (_build_prompt_request_response
              start_token end_token seed_prompt_group conversation_id fresh reqC
              target_identifier sequence labels orchestrator_identifier)]
            from rfl, List.drop_left] at hentry
          rw [List.mem_singleton] at hentry
          exact ⟨_, hentry⟩
      | some resp =>
          rw [show (send_prompt_async hash start_token end_token
              seed_prompt_group (.success (some resp)) conversation_id fresh
              reqC respC sequence labels target_identifier
              orchestrator_identifier memory).2 =
            (memory ++ [setRequestHashes hash (_build_prompt_request_response
              start_token end_token seed_prompt_group conversation_id fresh reqC
              target_identifier sequence labels orchestrator_identifier)]) ++
            [setRequestHashes hash (convert_values start_token end_token respC
              resp)]
            from rfl, List.append_assoc, List.drop_left] at hentry
          rcases List.mem_append.mp hentry with h | h
          · rw [List.mem_singleton] at h
            exact ⟨_, h⟩
          · rw [List.mem_singleton] at h
            exact ⟨_, h⟩
  | emptyResponse =>
      rw [show (send_prompt_async hash start_token end_token seed_prompt_group
          .emptyResponse conversation_id fresh reqC respC sequence labels
          target_identifier orchestrator_identifier memory).2 =
        (memory ++ [setRequestHashes hash (_build_prompt_request_response
          start_token end_token seed_prompt_group conversation_id fresh reqC
          target_identifier sequence labels orchestrator_identifier)]) ++
        [setRequestHashes hash (convert_values start_token end_token respC
          (construct_response_from_request
            (headPiece (setRequestHashes hash (_build_prompt_request_response
              start_token end_token seed_prompt_group conversation_id fresh reqC
              target_identifier sequence labels orchestrator_identifier)))
            [""] "text" "empty"))]
        from rfl, List.append_assoc, List.drop_left] at hentry
      rcases List.mem_append.mp hentry with h | h
      · rw [List.mem_singleton] at h
        exact ⟨_, h⟩
      · rw [List.mem_singleton] at h
        exact ⟨_, h⟩
  | failure msg =>
      rw [show (send_prompt_async hash start_token end_token seed_prompt_group
          (.failure msg) conversation_id fresh reqC respC sequence labels
          target_identifier orchestrator_identifier memory).2 =
        (memory ++ [setRequestHashes hash (_build_prompt_request_response
          start_token end_token seed_prompt_group conversation_id fresh reqC
          target_identifier sequence labels orchestrator_identifier)]) ++
        [setRequestHashes hash (construct_response_from_request
          (headPiece (setRequestHashes hash (_build_prompt_request_response
            start_token end_token seed_prompt_group conversation_id fresh reqC
            target_identifier sequence labels orchestrator_identifier)))
          [msg] "error" "processing")]
        from rfl, List.append_assoc, List.drop_left] at hentry
      rcases List.mem_append.mp hentry with h | h
      · rw [List.mem_singleton] at h
        exact ⟨_, h⟩
      · rw [List.mem_singleton] at h
        exact ⟨_, h⟩

/-- Claim C1: whenever `send_prompt_async` reaches the endpoint step, the new
store entries start with exactly one record of the built request (hashed),
followed by at most one response record, whatever the endpoint outcome; and
when the call ends in an exception, the failure record is also already in the
store the call hands back — persistence completes before the error
surfaces. -/
theorem send_prompt_async_persists_request_once (hash : String → String)
    (start_token end_token : String) (seed_prompt_group : SeedPromptGroup)
    (outcome : TargetOutcome) (conversation_id : Option String) (fresh : String)
    (request_converter_configurations : List PromptConverterConfiguration)
    (response_converter_configurations : List PromptConverterConfiguration)
    (sequence : Int) (labels : List (String × String))
    (target_identifier orchestrator_identifier : List (String × String))
    (memory : List PromptRequestResponse)
    (hne : seed_prompt_group.prompts ≠ []) :
    let request := _build_prompt_request_response start_token end_token
      seed_prompt_group conversation_id fresh request_converter_configurations
      target_identifier sequence labels orchestrator_identifier
    let r := send_prompt_async hash start_token end_token seed_prompt_group
      outcome conversation_id fresh request_converter_configurations
      response_converter_configurations sequence labels target_identifier
      orchestrator_identifier memory
    ∃ rest : List PromptRequestResponse,
      r.2 = memory ++ [setRequestHashes hash request] ++ rest ∧
      rest.length ≤ 1 ∧
      (∀ msg, r.1 = Except.error msg → rest.length = 1) := by
  intro request r
  cases outcome with
  | success o =>
      cases o with
      | none =>
          refine ⟨[], ?_, by simp, ?_⟩
          · rw [List.append_nil]
            rfl
          · intro msg hmsg
            exact Except.noConfusion hmsg
      | some resp =>
          refine ⟨[setRequestHashes hash (convert_values start_token end_token
            response_converter_configurations resp)], rfl, by simp, ?_⟩
          intro msg hmsg
          exact Except.noConfusion hmsg
  | emptyResponse =>
      refine ⟨[setRequestHashes hash (convert_values start_token end_token
        response_converter_configurations (construct_response_from_request
          (headPiece (setRequestHashes hash request)) [""] "text" "empty"))],
        rfl, by simp, ?_⟩
      intro msg hmsg
      exact Except.noConfusion hmsg
  | failure msg =>
      exact ⟨[setRequestHashes hash (construct_response_from_request
        (headPiece (setRequestHashes hash request)) [msg] "error"
        "processing")], rfl, by simp, fun _ _ => rfl⟩

/-- Claim C2: when the endpoint raises an error other than the empty-result
signal, `send_prompt_async` persists the built request, then persists an
error record whose single piece's content (original and converted value) is
the stringified error with error kind "processing", and re-raises the same
error. -/
theorem send_prompt_async_failure_spec (hash : String → String)
    (start_token end_token : String) (seed_prompt_group : SeedPromptGroup)
    (conversation_id : Option String) (fresh : String)
    (request_converter_configurations : List PromptConverterConfiguration)
    (response_converter_configurations : List PromptConverterConfiguration)
    (sequence : Int) (labels : List (String × String))
    (target_identifier orchestrator_identifier : List (String × String))
    (memory : List PromptRequestResponse) (msg : String)
    (hne : seed_prompt_group.prompts ≠ []) :
    let request := _build_prompt_request_response start_token end_token
      seed_prompt_group conversation_id fresh request_converter_configurations
      target_identifier sequence labels orchestrator_identifier
    let r := send_prompt_async hash start_token end_token seed_prompt_group
      (.failure msg) conversation_id fresh request_converter_configurations
      response_converter_configurations sequence labels target_identifier
      orchestrator_identifier memory
    ∃ er : PromptRequestResponse,
      r.1 = Except.error msg ∧
      r.2 = memory ++ [setRequestHashes hash request] ++ [er] ∧
      er.request_pieces.map
        (fun p => (p.original_value, p.converted_value, p.response_error)) =
        [(msg, msg, "processing")] := by
  intro request r
  exact ⟨_, rfl, rfl, rfl⟩

/-- Claim C3: when the endpoint signals an empty result, `send_prompt_async`
does not raise: it persists the hashed request, synthesizes a response of
exactly one piece of empty text with error kind "empty", persists that
response and returns it. -/
theorem send_prompt_async_empty_spec (hash : String → String)
    (start_token end_token : String) (seed_prompt_group : SeedPromptGroup)
    (conversation_id : Option String) (fresh : String)
    (request_converter_configurations : List PromptConverterConfiguration)
    (response_converter_configurations : List PromptConverterConfiguration)
    (sequence : Int) (labels : List (String × String))
    (target_identifier orchestrator_identifier : List (String × String))
    (memory : List PromptRequestResponse)
    (hne : seed_prompt_group.prompts ≠ []) :
    let request := _build_prompt_request_response start_token end_token
      seed_prompt_group conversation_id fresh request_converter_configurations
      target_identifier sequence labels orchestrator_identifier
    let r := send_prompt_async hash start_token end_token seed_prompt_group
      .emptyResponse conversation_id fresh request_converter_configurations
      response_converter_configurations sequence labels target_identifier
      orchestrator_identifier memory
    ∃ resp : PromptRequestResponse,
      r.1 = Except.ok (some resp) ∧
      r.2 = memory ++ [setRequestHashes hash request] ++ [resp] ∧
      resp.request_pieces.length = 1 ∧
      (∀ p ∈ resp.request_pieces,
        p.original_value = "" ∧ p.response_error = "empty") ∧
      (∀ p ∈ (setRequestHashes hash request).request_pieces,
        p.converted_value_sha256 = hash p.converted_value) := by
  intro request r
  refine ⟨_, rfl, rfl, ?_, ?_, ?_⟩
  · show (setRequestHashes hash (convert_values start_token end_token
      response_converter_configurations (construct_response_from_request
        (headPiece (setRequestHashes hash request)) [""] "text"
        "empty"))).request_pieces.length = 1
    show (List.map (set_sha256_values hash) _).length = 1
    rw [List.length_map, convert_values_length]
    rfl
  · intro p hp
    simp only [_calc_hash_and_add_request_to_memory, setRequestHashes,
      List.mem_map] at hp
    obtain ⟨q, hq, rfl⟩ := hp
    obtain ⟨j, p0, hj, rfl⟩ := convert_values_mem start_token end_token
      response_converter_configurations _ q hq
    obtain ⟨_, f2, _, _, _, _, _, _, _, f10⟩ :=
      applyConfigsToPiece_frame start_token end_token
        response_converter_configurations j p0
    obtain ⟨g1, g2⟩ := construct_response_mem
      (headPiece (setRequestHashes hash request)) [""] "text" "empty" p0
      (List.mem_iff_getElem?.mpr ⟨j, hj⟩)
    rw [List.mem_singleton] at g2
    constructor
    · show (applyConfigsToPiece start_token end_token
        response_converter_configurations j p0).original_value = ""
      rw [f2, g2]
    · show (applyConfigsToPiece start_token end_token
        response_converter_configurations j p0).response_error = "empty"
      rw [f10, g1]
  · intro p hp
    exact (setRequestHashes_hash_inv hash request p hp).1

/-- Claim C5: every piece `send_prompt_async` persists carries, at the moment
of the store write, `converted_value_sha256 = hash converted_value` (and
likewise for the original value); store entries are never reworked after the
write, so the stored hash always matches the stored converted value. -/
theorem send_prompt_async_hash_spec (hash : String → String)
    (start_token end_token : String) (seed_prompt_group : SeedPromptGroup)
    (outcome : TargetOutcome) (conversation_id : Option String) (fresh : String)
    (request_converter_configurations : List PromptConverterConfiguration)
    (response_converter_configurations : List PromptConverterConfiguration)
    (sequence : Int) (labels : List (String × String))
    (target_identifier orchestrator_identifier : List (String × String))
    (memory : List PromptRequestResponse) :
    ∀ entry ∈ ((send_prompt_async hash start_token end_token seed_prompt_group
        outcome conversation_id fresh request_converter_configurations
        response_converter_configurations sequence labels target_identifier
        orchestrator_identifier memory).2).drop memory.length,
      ∀ p ∈ entry.request_pieces,
        p.converted_value_sha256 = hash p.converted_value ∧
        p.original_value_sha256 = hash p.original_value := by
  intro entry hentry p hp
  obtain ⟨r0, rfl⟩ := send_new_entries_hashed hash start_token end_token
    seed_prompt_group outcome conversation_id fresh
    request_converter_configurations response_converter_configurations sequence
    labels target_identifier orchestrator_identifier memory entry hentry
  exact setRequestHashes_hash_inv hash r0 p hp

/-- Claim C8: when the endpoint call completes without raising but yields a
null response, `send_prompt_async` returns the empty result (no response, no
piece) and persists nothing beyond the request. -/
theorem send_prompt_async_null_response_spec (hash : String → String)
    (start_token end_token : String) (seed_prompt_group : SeedPromptGroup)
    (conversation_id : Option String) (fresh : String)
    (request_converter_configurations : List PromptConverterConfiguration)
    (response_converter_configurations : List PromptConverterConfiguration)
    (sequence : Int) (labels : List (String × String))
    (target_identifier orchestrator_identifier : List (String × String))
    (memory : List PromptRequestResponse) :
    (send_prompt_async hash start_token end_token seed_prompt_group
      (.success none) conversation_id fresh request_converter_configurations
      response_converter_configurations sequence labels target_identifier
      orchestrator_identifier memory).1 = Except.ok none ∧
    (send_prompt_async hash start_token end_token seed_prompt_group
      (.success none) conversation_id fresh request_converter_configurations
      response_converter_configurations sequence labels target_identifier
      orchestrator_identifier memory).2 =
      memory ++ [setRequestHashes hash (_build_prompt_request_response
        start_token end_token seed_prompt_group conversation_id fresh
        request_converter_configurations target_identifier sequence labels
        orchestrator_identifier)] :=
  ⟨rfl, rfl⟩

lemma batch_task_async_perm {α δ : Type} (task : α → δ) (items : List α)
    (completion_order : List Nat)
    (hperm : completion_order.Perm (List.range items.length)) :
    batch_task_async task items completion_order =
      items.map (fun a => some (task a)) := by
  apply List.ext_getElem?
  intro j
  by_cases hj : j < items.length
  · have hit : items[j]? = some items[j] := List.getElem?_eq_getElem hj
    have hrhs : (items.map (fun a => some (task a)))[j]? =
        some (some (task items[j])) := by
      rw [List.getElem?_map, hit]
      rfl
    have hlhs : (batch_task_async task items completion_order)[j]? =
        some (some (task items[j])) := by
      show (reassemble (List.replicate items.length none)
        (completion_order.filterMap
          (fun i => (items[i]?).map (fun a => (i, task a)))))[j]? = _
      apply reassemble_getElem_of_mem
      · rw [List.length_replicate]
        exact hj
      · intro q hq hqj
        rw [List.mem_filterMap] at hq
        obtain ⟨i, hi, hfi⟩ := hq
        cases hii : items[i]? with
        | none =>
            rw [hii] at hfi
            exact absurd hfi (by simp)
        | some a =>
            rw [hii] at hfi
            obtain rfl := Option.some.inj hfi
            have hij : i = j := hqj
            subst hij
            rw [hit] at hii
            have ha : items[i] = a := Option.some.inj hii
            subst ha
            rfl
      · apply List.mem_map.mpr
        refine ⟨(j, task items[j]), ?_, rfl⟩
        rw [List.mem_filterMap]
        refine ⟨j, hperm.mem_iff.mpr (List.mem_range.mpr hj), ?_⟩
        rw [hit]
        rfl
    rw [hlhs, hrhs]
  · have h1 : (batch_task_async task items completion_order).length =
        items.length := by
      show (reassemble (List.replicate items.length none) _).length = _
      rw [reassemble_length, List.length_replicate]
    rw [List.getElem?_eq_none (by rw [h1]; omega),
      List.getElem?_eq_none (by rw [List.length_map]; omega)]

/-- Claim C9: for every batch, the coordinator returns one entry per input
and the result at index i is the dispatch outcome of the request at index i,
for every order in which the concurrent dispatches complete (any permutation
of the submission indexes). -/
theorem send_prompt_batch_order_spec {δ : Type}
    (dispatch : SeedPromptGroup → List PromptConverterConfiguration →
      List PromptConverterConfiguration → Option String → δ)
    (requests : List NormalizerRequest) (completion_order : List Nat)
    (hperm : completion_order.Perm (List.range requests.length)) :
    send_prompt_batch_to_target_async dispatch requests completion_order =
      requests.map (fun r => some (dispatch r.seed_prompt_group
        r.request_converter_configurations r.response_converter_configurations
        r.conversation_id)) := by
  have hunfold : send_prompt_batch_to_target_async dispatch requests
      completion_order =
    batch_task_async
      (fun item => dispatch item.1 item.2.1 item.2.2.1 item.2.2.2)
      (requests.map (fun r => (r.seed_prompt_group,
        r.request_converter_configurations,
        r.response_converter_configurations, r.conversation_id)))
      completion_order := rfl
  rw [hunfold, batch_task_async_perm _ _ _ (by rw [List.length_map]; exact
    hperm), List.map_map]
  rfl

/-- A one-seed group used to evaluate the theorems on concrete inputs. -/
def sampleSeed : SeedPrompt := ⟨"a", "text", []⟩

def sampleGroup : SeedPromptGroup := ⟨[sampleSeed]⟩

def sampleHash : String → String := fun s => s ++ "#"

def sampleConvA : PromptConverter :=
  ⟨[("name", "A")], fun v t _ _ => ⟨v ++ "a", t⟩⟩

def sampleConvB : PromptConverter :=
  ⟨[("name", "B")], fun v t _ _ => ⟨v ++ "b", t⟩⟩

def samplePiece : PromptRequestPiece :=
  mkPromptRequestPiece sampleSeed "c0" (-1) [] [] []

def sampleRequest : NormalizerRequest := ⟨sampleGroup, [], [], none⟩

theorem send_prompt_async_persists_request_once_witness :
    sampleGroup.prompts ≠ [] ∧
    (let request := _build_prompt_request_response "⟪" "⟫" sampleGroup none
      "c0" [] [] (-1) [] []
     let r := send_prompt_async sampleHash "⟪" "⟫" sampleGroup
      (.failure "boom") none "c0" [] [] (-1) [] [] [] []
     ∃ rest : List PromptRequestResponse,
       r.2 = [] ++ [setRequestHashes sampleHash request] ++ rest ∧
       rest.length ≤ 1 ∧
       (∀ msg, r.1 = Except.error msg → rest.length = 1)) :=
  ⟨by decide,
    send_prompt_async_persists_request_once sampleHash "⟪" "⟫" sampleGroup
      (.failure "boom") none "c0" [] [] (-1) [] [] [] [] (by decide)⟩

theorem send_prompt_async_failure_spec_witness :
    sampleGroup.prompts ≠ [] ∧
    (let request := _build_prompt_request_response "⟪" "⟫" sampleGroup none
      "c0" [] [] (-1) [] []
     let r := send_prompt_async sampleHash "⟪" "⟫" sampleGroup
      (.failure "quota exceeded") none "c0" [] [] (-1) [] [] [] []
     ∃ er : PromptRequestResponse,
       r.1 = Except.error "quota exceeded" ∧
       r.2 = [] ++ [setRequestHashes sampleHash request] ++ [er] ∧
       er.request_pieces.map
         (fun p => (p.original_value, p.converted_value, p.response_error)) =
         [("quota exceeded", "quota exceeded", "processing")]) :=
  ⟨by decide,
    send_prompt_async_failure_spec sampleHash "⟪" "⟫" sampleGroup none "c0"
      [] [] (-1) [] [] [] [] "quota exceeded" (by decide)⟩

theorem send_prompt_async_empty_spec_witness :
    sampleGroup.prompts ≠ [] ∧
    (let request := _build_prompt_request_response "⟪" "⟫" sampleGroup none
      "c0" [] [] (-1) [] []
     let r := send_prompt_async sampleHash "⟪" "⟫" sampleGroup .emptyResponse
      none "c0" [] [] (-1) [] [] [] []
     ∃ resp : PromptRequestResponse,
       r.1 = Except.ok (some resp) ∧
       r.2 = [] ++ [setRequestHashes sampleHash request] ++ [resp] ∧
       resp.request_pieces.length = 1 ∧
       (∀ p ∈ resp.request_pieces,
         p.original_value = "" ∧ p.response_error = "empty") ∧
       (∀ p ∈ (setRequestHashes sampleHash request).request_pieces,
         p.converted_value_sha256 = sampleHash p.converted_value)) :=
  ⟨by decide,
    send_prompt_async_empty_spec sampleHash "⟪" "⟫" sampleGroup none "c0"
      [] [] (-1) [] [] [] [] (by decide)⟩

theorem build_prompt_request_response_spec_witness :
    sampleGroup.prompts ≠ [] ∧
    (let cid := resolve_conversation_id none "c0"
     let out := _build_prompt_request_response "⟪" "⟫" sampleGroup none "c0"
      [] [] (-1) [] []
     out.request_pieces.length = sampleGroup.prompts.length ∧
     out.request_pieces ≠ [] ∧
     (∀ (i : Nat) (sp : SeedPrompt), sampleGroup.prompts[i]? = some sp →
       ∃ p : PromptRequestPiece, out.request_pieces[i]? = some p ∧
         p.role = "user" ∧ p.original_value = sp.value ∧
         p.original_value_data_type = sp.data_type ∧
         p.prompt_metadata = sp.metadata ∧ p.conversation_id = cid) ∧
     ((none : Option String) = none → cid = "c0")) :=
  ⟨by decide,
    build_prompt_request_response_spec "⟪" "⟫" sampleGroup none "c0" [] []
      (-1) [] [] (by decide)⟩

theorem send_prompt_async_hash_spec_witness :
    (set_sha256_values sampleHash
      samplePiece).converted_value_sha256 =
      sampleHash (set_sha256_values sampleHash samplePiece).converted_value ∧
    (set_sha256_values sampleHash samplePiece).original_value_sha256 =
      sampleHash (set_sha256_values sampleHash samplePiece).original_value :=
  send_prompt_async_hash_spec sampleHash "⟪" "⟫" sampleGroup (.failure "boom")
    none "c0" [] [] (-1) [] [] [] []
    (setRequestHashes sampleHash (_build_prompt_request_response "⟪" "⟫"
      sampleGroup none "c0" [] [] (-1) [] []))
    (by decide)
    (set_sha256_values sampleHash samplePiece)
    (by decide)

theorem converter_chain_order_spec_witness :
    applyConfigToPiece "⟪" "⟫" ⟨[sampleConvA, sampleConvB], [], []⟩ 0
      samplePiece ≠
    applyConfigToPiece "⟪" "⟫" ⟨[sampleConvB, sampleConvA], [], []⟩ 0
      samplePiece := by
  have h := converter_chain_order_spec "⟪" "⟫" sampleConvA sampleConvB 0
    samplePiece
  exact h.2.2.2.2 (by decide)

theorem converter_filter_spec_witness :
    (convert_values "⟪" "⟫" [⟨[sampleConvA], [5], []⟩]
      ⟨[samplePiece]⟩).request_pieces[0]? = some samplePiece := by
  have h := (converter_filter_spec "⟪" "⟫").2 [⟨[sampleConvA], [5], []⟩]
    ⟨[samplePiece]⟩ 0 samplePiece rfl ?_
  · exact h
  · intro cfg hcfg
    rw [List.mem_singleton] at hcfg
    subst hcfg
    intro hap
    exact hap.1 ⟨by decide, by decide⟩

theorem send_prompt_batch_order_spec_witness :
    send_prompt_batch_to_target_async
      (fun g _ _ _ => g.prompts.length) [sampleRequest, sampleRequest]
      [1, 0] = [some 1, some 1] := by
  rw [send_prompt_batch_order_spec (fun g _ _ _ => g.prompts.length)
    [sampleRequest, sampleRequest] [1, 0] (by decide)]
  decide

theorem convert_values_frame_spec_witness :
    (applyConfigsToPiece "⟪" "⟫" [⟨[sampleConvA], [], []⟩] 0
      samplePiece).original_value = samplePiece.original_value ∧
    (applyConfigsToPiece "⟪" "⟫" [⟨[sampleConvA], [], []⟩] 0
      samplePiece).original_value_data_type =
      samplePiece.original_value_data_type ∧
    (applyConfigsToPiece "⟪" "⟫" [⟨[sampleConvA], [], []⟩] 0
      samplePiece).role = samplePiece.role ∧
    (applyConfigsToPiece "⟪" "⟫" [⟨[sampleConvA], [], []⟩] 0
      samplePiece).conversation_id = samplePiece.conversation_id ∧
    (applyConfigsToPiece "⟪" "⟫" [⟨[sampleConvA], [], []⟩] 0
      samplePiece).sequence = samplePiece.sequence ∧
    (applyConfigsToPiece "⟪" "⟫" [⟨[sampleConvA], [], []⟩] 0
      samplePiece).labels = samplePiece.labels ∧
    (applyConfigsToPiece "⟪" "⟫" [⟨[sampleConvA], [], []⟩] 0
      samplePiece).prompt_metadata = samplePiece.prompt_metadata :=
  (convert_values_frame_spec "⟪" "⟫" [⟨[sampleConvA], [], []⟩]
    ⟨[samplePiece]⟩).2 0 samplePiece
    (applyConfigsToPiece "⟪" "⟫" [⟨[sampleConvA], [], []⟩] 0 samplePiece)
    rfl rfl

end Pyrit
